import Mathlib

/-!
Shallow embedding of the webhook payment verification service
(signature validation, payload validation, fee calculation, ingestion
pipeline, audit logging) together with proofs about its behaviour.

JavaScript runtime values that the validator can observe are modelled
explicitly: a field that may be `undefined`/`null` is an `Option`, the
empty string keeps its JS falsiness, and a JS number is `JSNum` (NaN,
the infinities, or a finite value carried as an exact rational together
with its ECMAScript decimal rendering).  Machine floating point is
modelled by exact rationals at the cent precision the code works at.
-/

/-- Model of a JavaScript `number` value.  A finite value carries both its
numeric value (as an exact rational) and the string produced by
`Number.prototype.toString`, which the amount validator inspects. -/
inductive JSNum where
  | nan
  | posInf
  | negInf
  | finite (val : ℚ) (repr : String)
deriving DecidableEq, Repr

/-- The ECMAScript rendering used by `amount.toString()`. -/
def JSNum.jsToString : JSNum → String
  | .nan => "NaN"
  | .posInf => "Infinity"
  | .negInf => "-Infinity"
  | .finite _ r => r

/-- JS `isNaN(x)` for a number value. -/
def JSNum.jsIsNaN : JSNum → Bool
  | .nan => true
  | _ => false

/-- JS comparison `x <= 0` for a number value (`NaN <= 0` is false). -/
def JSNum.jsLeZero : JSNum → Bool
  | .nan => false
  | .posInf => false
  | .negInf => true
  | .finite q _ => q ≤ 0

/-- Runtime value found in the `amount` field: a number, a string, or some
other non-number value (object, boolean, ...). -/
inductive JSAmount where
  | num (n : JSNum)
  | str (s : String)
  | other
deriving DecidableEq, Repr

/-- Opaque key/value metadata attached to a transaction. -/
abbrev Metadata := List (String × String)

/-- `sender` / `receiver` object of the payload; each field may be absent
(`undefined`/`null` collapse to `none`). -/
structure Party where
  id : Option String
  name : Option String
  email : Option String
  country : Option String
deriving DecidableEq, Repr

/-- The `data` object of the webhook payload. -/
structure TransactionData where
  transaction_id : Option String
  amount : Option JSAmount
  currency : Option String
  sender : Option Party
  receiver : Option Party
  status : Option String
  payment_method : Option String
  metadata : Option Metadata
deriving DecidableEq, Repr

/-- The decoded webhook payload (`WebhookPayload` interface). -/
structure WebhookPayload where
  event_id : Option String
  event_type : Option String
  timestamp : Option String
  data : Option TransactionData
deriving DecidableEq, Repr

/-- Optional-chained access `payload.data?.transaction_id`. -/
def WebhookPayload.txnId (p : WebhookPayload) : Option String :=
  p.data >>= TransactionData.transaction_id

/-- Optional-chained access `payload.data?.amount`. -/
def WebhookPayload.amt (p : WebhookPayload) : Option JSAmount :=
  p.data >>= TransactionData.amount

/-- Optional-chained access `payload.data?.currency`. -/
def WebhookPayload.cur (p : WebhookPayload) : Option String :=
  p.data >>= TransactionData.currency

/-- Optional-chained access `payload.data?.status`. -/
def WebhookPayload.stat (p : WebhookPayload) : Option String :=
  p.data >>= TransactionData.status

/-- Optional-chained access `payload.data?.payment_method`. -/
def WebhookPayload.payMethod (p : WebhookPayload) : Option String :=
  p.data >>= TransactionData.payment_method

/-- Optional-chained access `payload.data?.metadata`. -/
def WebhookPayload.meta (p : WebhookPayload) : Option Metadata :=
  p.data >>= TransactionData.metadata

/-- Optional-chained access `payload.data?.sender?.id`. -/
def WebhookPayload.sendId (p : WebhookPayload) : Option String :=
  p.data >>= fun d => d.sender >>= Party.id

/-- Optional-chained access `payload.data?.sender?.name`. -/
def WebhookPayload.sendName (p : WebhookPayload) : Option String :=
  p.data >>= fun d => d.sender >>= Party.name

/-- Optional-chained access `payload.data?.sender?.email`. -/
def WebhookPayload.sendEmail (p : WebhookPayload) : Option String :=
  p.data >>= fun d => d.sender >>= Party.email

/-- Optional-chained access `payload.data?.sender?.country`. -/
def WebhookPayload.sendCountry (p : WebhookPayload) : Option String :=
  p.data >>= fun d => d.sender >>= Party.country

/-- Optional-chained access `payload.data?.receiver?.id`. -/
def WebhookPayload.recvId (p : WebhookPayload) : Option String :=
  p.data >>= fun d => d.receiver >>= Party.id

/-- Optional-chained access `payload.data?.receiver?.name`. -/
def WebhookPayload.recvName (p : WebhookPayload) : Option String :=
  p.data >>= fun d => d.receiver >>= Party.name

/-- Optional-chained access `payload.data?.receiver?.email`. -/
def WebhookPayload.recvEmail (p : WebhookPayload) : Option String :=
  p.data >>= fun d => d.receiver >>= Party.email

/-- Optional-chained access `payload.data?.receiver?.country`. -/
def WebhookPayload.recvCountry (p : WebhookPayload) : Option String :=
  p.data >>= fun d => d.receiver >>= Party.country

/-- `ValidationError` carries the offending field tag and a message. -/
structure ValidationError where
  field : String
  message : String
deriving DecidableEq, Repr

instance {ε α : Type} [DecidableEq ε] [DecidableEq α] :
    DecidableEq (Except ε α) := fun x y =>
  match x, y with
  | .ok a, .ok b =>
    if h : a = b then .isTrue (congrArg Except.ok h)
    else .isFalse fun hc => h (Except.ok.inj hc)
  | .error a, .error b =>
    if h : a = b then .isTrue (congrArg Except.error h)
    else .isFalse fun hc => h (Except.error.inj hc)
  | .ok _, .error _ => .isFalse fun hc => Except.noConfusion hc
  | .error _, .ok _ => .isFalse fun hc => Except.noConfusion hc

/-- A value of the `requiredFields` map: a string field or the `data.amount`
entry, whose runtime value is a `JSAmount`. -/
inductive ReqValue where
  | str (v : Option String)
  | amount (v : Option JSAmount)
deriving DecidableEq, Repr

/-- The required-field test `value === undefined || value === null ||
value === ""` (`undefined`/`null` are `none`; only the empty string among
the JS values compares `===` to `""`). -/
def ReqValue.isMissing : ReqValue → Bool
  | .str none => true
  | .str (some s) => s = ""
  | .amount none => true
  | .amount (some (.str s)) => s = ""
  | .amount _ => false

/-- `TransactionValidator.VALID_CURRENCIES`. -/
def TransactionValidator.VALID_CURRENCIES : List String :=
  ["USD", "EUR", "GBP", "INR", "JPY"]

/-- `TransactionValidator.VALID_STATUSES = Object.values(TransactionStatus)`. -/
def TransactionValidator.VALID_STATUSES : List String :=
  ["pending", "completed", "failed"]

/-- The `requiredFields` object literal, in insertion order; the values use
the optional chaining of the source (`payload.data?.sender?.email`, ...). -/
def TransactionValidator.requiredFields (p : WebhookPayload) :
    List (String × ReqValue) :=
  [("event_id", .str p.event_id),
   ("event_type", .str p.event_type),
   ("data.transaction_id", .str p.txnId),
   ("data.amount", .amount p.amt),
   ("data.currency", .str p.cur),
   ("data.sender.id", .str p.sendId),
   ("data.sender.name", .str p.sendName),
   ("data.sender.email", .str p.sendEmail),
   ("data.sender.country", .str p.sendCountry),
   ("data.receiver.id", .str p.recvId),
   ("data.receiver.name", .str p.recvName),
   ("data.receiver.email", .str p.recvEmail),
   ("data.receiver.country", .str p.recvCountry),
   ("data.status", .str p.stat),
   ("data.payment_method", .str p.payMethod)]

/-- The `for (const [field, value] of Object.entries(requiredFields))` loop:
throw on the first missing value. -/
def requiredLoop : List (String × ReqValue) → Except ValidationError Unit
  | [] => .ok ()
  | (field, value) :: rest =>
    if value.isMissing then .error ⟨field, s!"{field} is required"⟩
    else requiredLoop rest

/-- `TransactionValidator.validateRequired`: walks the `requiredFields` map in
insertion order and throws on the first absent / null / empty value. -/
def TransactionValidator.validateRequired (p : WebhookPayload) :
    Except ValidationError Unit :=
  requiredLoop (TransactionValidator.requiredFields p)

/-- `String.prototype.split(sep)` for a one-character separator, computed on
the character list. -/
def splitOnChar (sep : Char) : List Char → List (List Char)
  | [] => [[]]
  | c :: rest =>
    let r := splitOnChar sep rest
    if c = sep then [] :: r
    else
      match r with
      | h :: t => (c :: h) :: t
      | [] => [[c]]

/-- `String.prototype.toUpperCase()` (ASCII letters, which is all the code
compares against). -/
def jsToUpper (s : String) : String := String.mk (s.toList.map Char.toUpper)

/-- Fractional-digit test `amount.toString().split(".")[1]?.length > 2`
(false when the rendering has no dot, as for `"Infinity"` or `"1e-7"`). -/
def fracTooLong (s : String) : Bool :=
  match (splitOnChar '.' s.toList).get? 1 with
  | some frac => frac.length > 2
  | none => false

/-- `TransactionValidator.validateAmount`. -/
def TransactionValidator.validateAmount (amount : Option JSAmount) :
    Except ValidationError Unit :=
  match amount with
  | some (.num n) =>
    if n.jsIsNaN then .error ⟨"amount", "Amount must be a valid number"⟩
    else if n.jsLeZero then
      .error ⟨"amount", "Amount must be a positive number"⟩
    else if fracTooLong n.jsToString then
      .error ⟨"amount", "Amount cannot have more than 2 decimal places"⟩
    else .ok ()
  | _ => .error ⟨"amount", "Amount must be a valid number"⟩

/-- `TransactionValidator.validateCurrency`: case-insensitive membership in
the allow-list, computed on a local upper-cased copy. -/
def TransactionValidator.validateCurrency (currency : Option String) :
    Except ValidationError Unit :=
  match currency with
  | none => .error ⟨"currency", "Currency is required"⟩
  | some c =>
    if c = "" then .error ⟨"currency", "Currency is required"⟩
    else if TransactionValidator.VALID_CURRENCIES.contains (jsToUpper c) then
      .ok ()
    else
      .error ⟨"currency", "Currency must be a valid ISO code. Supported: " ++
        String.intercalate ", " TransactionValidator.VALID_CURRENCIES⟩

/-- `TransactionValidator.validateStatus`. -/
def TransactionValidator.validateStatus (status : Option String) :
    Except ValidationError Unit :=
  match status with
  | none => .error ⟨"status", "Status is required"⟩
  | some s =>
    if s = "" then .error ⟨"status", "Status is required"⟩
    else if TransactionValidator.VALID_STATUSES.contains s then .ok ()
    else
      .error ⟨"status", "Status must be one of: " ++
        String.intercalate ", " TransactionValidator.VALID_STATUSES⟩

/-- Regex test `^[A-Z]{2}$` applied to the upper-cased copy. -/
def isTwoUpperAlpha (s : String) : Bool :=
  s.length = 2 && s.toList.all fun c => 'A' ≤ c && c ≤ 'Z'

/-- Body of the `countries.forEach((country, index) => ...)` loop in
`validateCountryCodes`: error tags are `country_0`, `country_1`, ... -/
def TransactionValidator.countryCheck (index : Nat) (country : Option String) :
    Except ValidationError Unit :=
  match country with
  | none => .error ⟨s!"country_{index}", "Country code is required"⟩
  | some c =>
    if c = "" then .error ⟨s!"country_{index}", "Country code is required"⟩
    else if isTwoUpperAlpha (jsToUpper c) then .ok ()
    else
      .error ⟨s!"country_{index}",
        s!"Country code must be 2-letter ISO code (e.g., US, IN, GB). Received: {c}"⟩

/-- The indexed `forEach` traversal of `validateCountryCodes`. -/
def TransactionValidator.countryLoop (index : Nat) :
    List (Option String) → Except ValidationError Unit
  | [] => .ok ()
  | c :: rest => do
    TransactionValidator.countryCheck index c
    TransactionValidator.countryLoop (index + 1) rest

/-- `TransactionValidator.validateCountryCodes(...countries)`. -/
def TransactionValidator.validateCountryCodes
    (countries : List (Option String)) : Except ValidationError Unit :=
  TransactionValidator.countryLoop 0 countries

/-- Character class `[^\s@]` of the email regex. -/
def isEmailChar (c : Char) : Bool := !c.isWhitespace && c ≠ '@'

/-- Interior dot: the domain part must match `[^\s@]+\.[^\s@]+`, i.e. contain
a dot that has at least one character on each side. -/
def hasInteriorDot (l : List Char) : Bool :=
  ((l.drop 1).dropLast).contains '.'

/-- Test of the email regex `^[^\s@]+@[^\s@]+\.[^\s@]+$`. -/
def emailRegexTest (s : String) : Bool :=
  match splitOnChar '@' s.toList with
  | [locPart, domain] =>
    !locPart.isEmpty && locPart.all isEmailChar &&
      domain.all isEmailChar && hasInteriorDot domain
  | _ => false

/-- `TransactionValidator.validateEmail(email, fieldName)`. -/
def TransactionValidator.validateEmail (email : Option String)
    (fieldName : String) : Except ValidationError Unit :=
  match email with
  | none => .error ⟨fieldName, s!"{fieldName} is required"⟩
  | some e =>
    if e = "" then .error ⟨fieldName, s!"{fieldName} is required"⟩
    else if emailRegexTest e then .ok ()
    else .error ⟨fieldName, s!"{fieldName} must be a valid email address"⟩

/-- `TransactionValidator.validate(payload)`: the fixed sequence of checks;
the first failing check's `ValidationError` is the thrown one. -/
def TransactionValidator.validate (p : WebhookPayload) :
    Except ValidationError Unit := do
  TransactionValidator.validateRequired p
  TransactionValidator.validateAmount p.amt
  TransactionValidator.validateCurrency p.cur
  TransactionValidator.validateStatus p.stat
  TransactionValidator.validateCountryCodes [p.sendCountry, p.recvCountry]
  TransactionValidator.validateEmail p.sendEmail "sender.email"
  TransactionValidator.validateEmail p.recvEmail "receiver.email"

/-- `x.toFixed(2)` followed by `parseFloat`: round to the nearest multiple of
`1/100`, ties toward the larger value, exactly as ECMAScript `toFixed`. -/
def toFixed2 (x : ℚ) : ℚ := ((round (x * 100) : ℤ) : ℚ) / 100

/-- `TransactionCalculator.PROCESSING_FEE_RATE` (2%). -/
def TransactionCalculator.FEE_PERCENT : ℚ := 2 / 100

/-- `TransactionCalculator.calculateDerivedFields(amount)`: the fee is rounded
to 2 decimals first and only then subtracted from the amount. -/
def TransactionCalculator.calculateDerivedFields (amount : ℚ) : ℚ × ℚ :=
  let processingFee := toFixed2 (amount * TransactionCalculator.FEE_PERCENT)
  let netAmount := toFixed2 (amount - processingFee)
  (processingFee, netAmount)

/-- `crypto.timingSafeEqual(Buffer.from(a), Buffer.from(b))`: throws on a
byte-length mismatch, otherwise reports byte equality (constant time is an
implementation property with no functional content). -/
def timingSafeEqual (a b : String) : Except Unit Bool :=
  if a.utf8ByteSize = b.utf8ByteSize then .ok (a == b) else .error ()

/-- `SignatureValidator.verify(payload, receivedSignature)`.  The HMAC-SHA256
hex digest `crypto.createHmac("sha256", secret).update(m).digest("hex")` is an
abstract function `hmac secret m`; the `try/catch` returns `false` on the
length-mismatch exception of `timingSafeEqual`. -/
def SignatureValidator.verify (hmac : String → String → String)
    (secret payload receivedSignature : String) : Bool :=
  let expectedSignature := hmac secret payload
  match timingSafeEqual receivedSignature expectedSignature with
  | .ok b => b
  | .error _ => false

/-- Leading-whitespace strip, used for both ends of the trimmed string. -/
def trimLeftWs : List Char → List Char
  | [] => []
  | c :: r => if c.isWhitespace then trimLeftWs r else c :: r

/-- The whitespace trim `parseInt` applies to its argument. -/
def jsTrim (l : List Char) : List Char :=
  (trimLeftWs (trimLeftWs l.reverse).reverse)

/-- Value of a digit character under a radix, as JS `parseInt` sees it. -/
def digitValue (radix : Nat) (c : Char) : Option Nat :=
  let v :=
    if c.isDigit then some (c.toNat - 48)
    else if 'a' ≤ c && c ≤ 'z' then some (c.toNat - 87)
    else if 'A' ≤ c && c ≤ 'Z' then some (c.toNat - 55)
    else none
  match v with
  | some d => if d < radix then some d else none
  | none => none

/-- Accumulates the leading digits; `parseInt` ignores trailing garbage. -/
def parseIntDigits (radix : Nat) : List Char → Nat → Nat
  | [], acc => acc
  | c :: rest, acc =>
    match digitValue radix c with
    | some d => parseIntDigits radix rest (acc * radix + d)
    | none => acc

/-- JS `parseInt(s)` with no explicit radix: trim, optional sign, optional
`0x`/`0X` hex prefix, then leading digits; `none` models `NaN`. -/
def jsParseInt (s : String) : Option Int :=
  let chars := jsTrim s.toList
  let signRest : Int × List Char :=
    match chars with
    | '-' :: r => (-1, r)
    | '+' :: r => (1, r)
    | r => (1, r)
  let radixDigits : Nat × List Char :=
    match signRest.2 with
    | '0' :: 'x' :: r => (16, r)
    | '0' :: 'X' :: r => (16, r)
    | r => (10, r)
  match radixDigits.2 with
  | [] => none
  | c :: _ =>
    match digitValue radixDigits.1 c with
    | some _ =>
      some (signRest.1 * (parseIntDigits radixDigits.1 radixDigits.2 0 : Int))
    | none => none

/-- `SignatureValidator.verifyWithTimestamp(payload, receivedSignature,
timestamp, toleranceSeconds)`.  `currentTime` models the wall-clock read
`Math.floor(Date.now() / 1000)`; the route uses the default tolerance 300. -/
def SignatureValidator.verifyWithTimestamp (hmac : String → String → String)
    (secret payload receivedSignature timestamp : String)
    (currentTime toleranceSeconds : Int) : Bool :=
  match jsParseInt timestamp with
  | none => false
  | some payloadTime =>
    if |currentTime - payloadTime| > toleranceSeconds then false
    else
      let signedPayload := timestamp ++ "." ++ payload
      SignatureValidator.verify hmac secret signedPayload receivedSignature

/-- A persisted `Transaction` row, as assembled by
`transactionRepo.create` in `WebhookService.processWebhook`. -/
structure TransactionRecord where
  event_id : String
  transaction_id : String
  amount : ℚ
  currency : String
  sender_id : String
  sender_name : String
  sender_country : String
  receiver_id : String
  receiver_name : String
  receiver_country : String
  status : String
  payment_method : String
  processing_fee : ℚ
  net_amount : ℚ
  exchange_rate : Option ℚ
  metadata : Option Metadata
  processed_at : Int
deriving DecidableEq, Repr

/-- A persisted `AuditLog` row. -/
structure AuditLogEntry where
  event_id : String
  event_type : String
  payload : WebhookPayload
  status : String
  error_message : Option String
deriving DecidableEq, Repr

/-- The persistence store: the `transactions` table (with its uniqueness
constraints on `event_id` and `transaction_id`) and the `audit_logs` table. -/
structure Store where
  transactions : List TransactionRecord
  auditLogs : List AuditLogEntry
deriving DecidableEq, Repr

/-- Error raised by the storage driver on `transactionRepo.save`. -/
inductive DBError where
  | uniqueViolation
  | generic
deriving DecidableEq, Repr

/-- `error.message` of the storage error. -/
def DBError.message : DBError → String
  | .uniqueViolation => "duplicate key value violates unique constraint"
  | .generic => "storage failure"

/-- The errors `processWebhook` can throw to the route handler. -/
inductive PipelineError where
  | validationFailed (e : ValidationError)
  | duplicateTransaction (existingTransaction : TransactionRecord)
  | queryFailed (e : DBError)
deriving DecidableEq, Repr

/-- `error.message`, as recorded in the `failed` audit entry. -/
def PipelineError.message : PipelineError → String
  | .validationFailed e => e.message
  | .duplicateTransaction _ => "Transaction already processed"
  | .queryFailed e => e.message

/-- Behaviour of the transaction insert, covering the concurrency race: a
concurrent duplicate can make the uniqueness constraint fire even though the
pre-check read an older store snapshot. -/
inductive InsertBehavior where
  | normal
  | concurrentDuplicate
  | storageFailure
deriving DecidableEq, Repr

/-- `transactionRepo.save`: raises a uniqueness violation when either key is
already present (or when a concurrent writer inserted it first), can raise a
generic storage error, and otherwise appends the row. -/
def insertTransaction (behavior : InsertBehavior)
    (transactions : List TransactionRecord) (t : TransactionRecord) :
    Except DBError (List TransactionRecord) :=
  match behavior with
  | .concurrentDuplicate => .error .uniqueViolation
  | .storageFailure => .error .generic
  | .normal =>
    if transactions.any fun u =>
        u.event_id == t.event_id || u.transaction_id == t.transaction_id then
      .error .uniqueViolation
    else .ok (transactions ++ [t])

/-- Per-request environment: injected insert behaviour, injected audit-write
failures, the `new Date()` read at persistence and the middleware clock. -/
structure Env where
  insertBehavior : InsertBehavior
  auditFailReceived : Bool
  auditFailTerminal : Bool
  now : Int
  currentTime : Int
deriving DecidableEq, Repr

/-- `auditLogRepo.save`: fails when the injected fault says so. -/
def saveAuditLog (fail : Bool) (st : Store) (entry : AuditLogEntry) :
    Except DBError Store :=
  if fail then .error .generic
  else .ok { st with auditLogs := st.auditLogs ++ [entry] }

/-- The `auditLogRepo.create` literal in `WebhookService.logWebhookEvent`. -/
def mkAuditEntry (p : WebhookPayload) (status : String)
    (errMsg : Option String) : AuditLogEntry :=
  { event_id := p.event_id.getD ""
    event_type := p.event_type.getD ""
    payload := p
    status := status
    error_message := errMsg }

/-- `WebhookService.logWebhookEvent`: the `try/catch` swallows any audit-write
failure (it is only logged to the console), so the function always returns. -/
def WebhookService.logWebhookEvent (fail : Bool) (st : Store)
    (p : WebhookPayload) (status : String) (errMsg : Option String) : Store :=
  match saveAuditLog fail st (mkAuditEntry p status errMsg) with
  | .ok st2 => st2
  | .error _ => st

/-- `WebhookService.checkDuplicate(eventId, transactionId)`: `findOne` by
`event_id` first, then by `transaction_id`; the first hit is thrown. -/
def WebhookService.checkDuplicate (transactions : List TransactionRecord)
    (eventId transactionId : String) : Except PipelineError Unit :=
  match transactions.find? fun t => t.event_id == eventId with
  | some existingByEvent => .error (.duplicateTransaction existingByEvent)
  | none =>
    match transactions.find? fun t => t.transaction_id == transactionId with
    | some existingByTxn => .error (.duplicateTransaction existingByTxn)
    | none => .ok ()

/-- Numeric value of the validated amount (`payload.data.amount`); the exact
rational stands in for the JS double. -/
def WebhookService.payloadAmount (p : WebhookPayload) : ℚ :=
  match p.amt with
  | some (.num (.finite q _)) => q
  | _ => 0

/-- The `transactionRepo.create({...})` literal: currency and both country
codes are upper-cased here, `processed_at` is `new Date()`, and
`exchange_rate` is never set, so the nullable column stays null. -/
def WebhookService.mkTransaction (p : WebhookPayload) (derived : ℚ × ℚ)
    (now : Int) : TransactionRecord :=
  { event_id := p.event_id.getD ""
    transaction_id := p.txnId.getD ""
    amount := WebhookService.payloadAmount p
    currency := jsToUpper (p.cur.getD "")
    sender_id := p.sendId.getD ""
    sender_name := p.sendName.getD ""
    sender_country := jsToUpper (p.sendCountry.getD "")
    receiver_id := p.recvId.getD ""
    receiver_name := p.recvName.getD ""
    receiver_country := jsToUpper (p.recvCountry.getD "")
    status := p.stat.getD ""
    payment_method := p.payMethod.getD ""
    processing_fee := derived.1
    net_amount := derived.2
    exchange_rate := none
    metadata := p.meta
    processed_at := now }

/-- The `try` block of `processWebhook`: validate, idempotency pre-check,
derived-field computation, construction, insert.  Note the absence of any
handler translating `DBError.uniqueViolation` into a duplicate signal. -/
def WebhookService.pipelineAttempt (ib : InsertBehavior) (now : Int)
    (p : WebhookPayload) (transactions : List TransactionRecord) :
    Except PipelineError (TransactionRecord × List TransactionRecord) := do
  (TransactionValidator.validate p).mapError PipelineError.validationFailed
  WebhookService.checkDuplicate transactions (p.event_id.getD "")
    (p.txnId.getD "")
  let derived :=
    TransactionCalculator.calculateDerivedFields (WebhookService.payloadAmount p)
  let transaction := WebhookService.mkTransaction p derived now
  let transactions2 ←
    (insertTransaction ib transactions transaction).mapError
      PipelineError.queryFailed
  pure (transaction, transactions2)

/-- `WebhookService.processWebhook(payload)`: the initial `received` audit
write, then the `try` block; on success one `processed` audit write, on any
thrown error one `failed` audit write before the error is rethrown. -/
def WebhookService.processWebhook (env : Env) (p : WebhookPayload)
    (st : Store) : Except PipelineError TransactionRecord × Store :=
  let st1 := WebhookService.logWebhookEvent env.auditFailReceived st p
    "received" none
  match WebhookService.pipelineAttempt env.insertBehavior env.now p
      st1.transactions with
  | .ok (transaction, transactions2) =>
    (.ok transaction,
      WebhookService.logWebhookEvent env.auditFailTerminal
        { st1 with transactions := transactions2 } p "processed" none)
  | .error e =>
    (.error e,
      WebhookService.logWebhookEvent env.auditFailTerminal st1 p "failed"
        (some e.message))

/-- The signature headers of the inbound request. -/
structure RequestHeaders where
  signature : Option String
  timestamp : Option String
deriving DecidableEq, Repr

/-- The branch of the `verifySignature` middleware that runs once a non-empty
signature header is present: timestamped verification (tolerance 300) when a
non-empty timestamp header exists, plain verification otherwise. -/
def signatureIsValid (hmac : String → String → String)
    (secret rawBody : String) (headers : RequestHeaders)
    (currentTime : Int) : Bool :=
  let signature := headers.signature.getD ""
  let timestamp := headers.timestamp.getD ""
  if timestamp ≠ "" then
    SignatureValidator.verifyWithTimestamp hmac secret rawBody signature
      timestamp currentTime 300
  else
    SignatureValidator.verify hmac secret rawBody signature

/-- The `POST /payment` route with its `verifySignature` middleware: 401 on a
missing/empty or invalid signature (before `processWebhook` runs, so no audit
writes happen), then the status mapping of the route's `catch`:
`DuplicateTransactionError` to 409, `ValidationError` to 400, anything
else (including a storage uniqueness violation) to 500. -/
def handlePaymentRequest (hmac : String → String → String) (secret : String)
    (env : Env) (rawBody : String) (headers : RequestHeaders)
    (p : WebhookPayload) (st : Store) : Nat × Store :=
  if headers.signature.getD "" = "" then (401, st)
  else if !signatureIsValid hmac secret rawBody headers env.currentTime then
    (401, st)
  else
    match WebhookService.processWebhook env p st with
    | (.ok _, st2) => (200, st2)
    | (.error (.duplicateTransaction _), st2) => (409, st2)
    | (.error (.validationFailed _), st2) => (400, st2)
    | (.error (.queryFailed _), st2) => (500, st2)

/-- A well-formed payload: every required field present, amount 100.50,
currency USD, both countries upper-case two-letter codes, valid emails. -/
def goodPayload : WebhookPayload :=
  { event_id := some "evt_123"
    event_type := some "payment.completed"
    timestamp := some "2024-01-15T10:30:00Z"
    data := some
      { transaction_id := some "txn_456"
        amount := some (.num (.finite (mkRat 201 2) "100.5"))
        currency := some "USD"
        sender := some
          { id := some "user_789"
            name := some "John Doe"
            email := some "john@example.com"
            country := some "US" }
        receiver := some
          { id := some "user_101"
            name := some "Jane Smith"
            email := some "jane@example.com"
            country := some "CA" }
        status := some "completed"
        payment_method := some "credit_card"
        metadata := none } }

/-- An empty persistence store. -/
def emptyStore : Store := { transactions := [], auditLogs := [] }

/-- A concrete stand-in for the HMAC-SHA256 hex digest function. -/
def hmacDemo : String → String → String := fun _ _ => "deadbeef"

/-- Environment with a healthy store and no injected faults. -/
def envOK : Env :=
  { insertBehavior := .normal
    auditFailReceived := false
    auditFailTerminal := false
    now := 1700000000
    currentTime := 1700000000 }

/-- Environment identical to `envOK` except that a concurrent writer wins the
insert race, so the insert raises the uniqueness-constraint violation. -/
def envDup : Env := { envOK with insertBehavior := .concurrentDuplicate }

/-- Replace the `amount` field of a payload. -/
def setAmount (p : WebhookPayload) (a : Option JSAmount) : WebhookPayload :=
  match p.data with
  | some d => { p with data := some { d with amount := a } }
  | none => p

/-- Replace the `currency` field of a payload. -/
def setCurrency (p : WebhookPayload) (c : Option String) : WebhookPayload :=
  match p.data with
  | some d => { p with data := some { d with currency := c } }
  | none => p

/-- Replace the sender country of a payload. -/
def setSenderCountry (p : WebhookPayload) (c : Option String) : WebhookPayload :=
  match p.data with
  | some d =>
    match d.sender with
    | some snd =>
      { p with data := some { d with sender := some { snd with country := c } } }
    | none => p
  | none => p

/-- Replace the receiver country of a payload. -/
def setReceiverCountry (p : WebhookPayload) (c : Option String) :
    WebhookPayload :=
  match p.data with
  | some d =>
    match d.receiver with
    | some rcv =>
      { p with data := some { d with receiver := some { rcv with country := c } } }
    | none => p
  | none => p

/-- `goodPayload` with `amount: Infinity`. -/
def infAmountPayload : WebhookPayload :=
  setAmount goodPayload (some (.num .posInf))

/-- `goodPayload` with the three-letter sender country `"USA"`. -/
def badCountryPayload : WebhookPayload :=
  setSenderCountry goodPayload (some "USA")

/-- `goodPayload` with lower-case currency and country codes. -/
def lcPayload : WebhookPayload :=
  setReceiverCountry
    (setSenderCountry (setCurrency goodPayload (some "usd")) (some "us"))
    (some "ca")

/-- Derived fields of the demo amount 100.50. -/
def demoDerived : ℚ × ℚ :=
  TransactionCalculator.calculateDerivedFields (mkRat 201 2)

/-- The transaction row the healthy demo run persists. -/
def demoRecord : TransactionRecord :=
  WebhookService.mkTransaction goodPayload demoDerived 1700000000

/-- Status of the terminal audit entry as a function of the outcome. -/
def terminalStatusOf (r : Except PipelineError TransactionRecord) : String :=
  match r with
  | .ok _ => "processed"
  | .error _ => "failed"

/-- Error message of the terminal audit entry as a function of the outcome. -/
def terminalMessageOf (r : Except PipelineError TransactionRecord) :
    Option String :=
  match r with
  | .ok _ => none
  | .error e => some e.message

/-- Boolean success test for an `Except` result. -/
def exceptOk {ε α : Type} : Except ε α → Bool
  | .ok _ => true
  | .error _ => false

/-- The field tags of the `requiredFields` map, in check order. -/
def requiredTags : List String :=
  ["event_id", "event_type", "data.transaction_id", "data.amount",
   "data.currency", "data.sender.id", "data.sender.name", "data.sender.email",
   "data.sender.country", "data.receiver.id", "data.receiver.name",
   "data.receiver.email", "data.receiver.country", "data.status",
   "data.payment_method"]

section

attribute [local semireducible] Rat.mul Rat.sub Rat.add Rat.inv

/-- C6: `verify` returns true exactly when the received signature equals the
HMAC-SHA256 hex digest of the body under the shared secret.  In particular
`verify(body, hmac(secret, body))` is true; any differing received signature
(such as a mutated signature, or the digest of a body whose mutation changes
the digest) yields false; and the length-mismatch exception thrown inside
`timingSafeEqual` is caught and converted to false rather than propagated
(the function is total and Boolean). -/
theorem verify_true_iff_expected_signature
    (hmac : String → String → String)
    (secret payload receivedSignature : String) :
    SignatureValidator.verify hmac secret payload receivedSignature =
      (receivedSignature == hmac secret payload) := by
  by_cases h : receivedSignature = hmac secret payload
  · subst h
    simp [SignatureValidator.verify, timingSafeEqual]
  · have hb : (receivedSignature == hmac secret payload) = false := by
      simpa using h
    simp only [SignatureValidator.verify, timingSafeEqual, hb]
    split
    · rename_i b hbif
      split at hbif
      · exact (Except.ok.inj hbif).symm
      · exact absurd hbif fun hc => Except.noConfusion hc
    · rfl

/-- C5: `verifyWithTimestamp` fails closed when the timestamp header does not
parse as an integer under `parseInt`; it returns false whenever the distance
between the wall clock and the claimed timestamp exceeds the tolerance (the
route uses the default 300), regardless of the signature; and inside the
tolerance window it verifies the signature computed over the concatenation
`"<timestamp>.<rawBody>"`. -/
theorem verifyWithTimestamp_spec (hmac : String → String → String)
    (secret payload receivedSignature timestamp : String)
    (currentTime toleranceSeconds payloadTime : Int) :
    (jsParseInt timestamp = none →
      SignatureValidator.verifyWithTimestamp hmac secret payload
        receivedSignature timestamp currentTime toleranceSeconds = false)
    ∧ (jsParseInt timestamp = some payloadTime →
      |currentTime - payloadTime| > toleranceSeconds →
      SignatureValidator.verifyWithTimestamp hmac secret payload
        receivedSignature timestamp currentTime toleranceSeconds = false)
    ∧ (jsParseInt timestamp = some payloadTime →
      |currentTime - payloadTime| ≤ toleranceSeconds →
      SignatureValidator.verifyWithTimestamp hmac secret payload
        receivedSignature timestamp currentTime toleranceSeconds =
        SignatureValidator.verify hmac secret (timestamp ++ "." ++ payload)
          receivedSignature) := by
  refine ⟨fun h => ?_, fun h hfar => ?_, fun h hnear => ?_⟩
  · simp [SignatureValidator.verifyWithTimestamp, h]
  · simp [SignatureValidator.verifyWithTimestamp, h, hfar]
  · simp [SignatureValidator.verifyWithTimestamp, h, not_lt.mpr hnear]

/-- C5 witness: concrete instances of the three branches: an unparsable
timestamp, a timestamp 900 seconds away from the clock with tolerance 300,
and a timestamp 50 seconds away. -/
theorem verifyWithTimestamp_spec_witness :
    SignatureValidator.verifyWithTimestamp hmacDemo "secret" "body" "deadbeef"
      "nope" 150 300 = false
    ∧ SignatureValidator.verifyWithTimestamp hmacDemo "secret" "body"
      "deadbeef" "100" 1000 300 = false
    ∧ SignatureValidator.verifyWithTimestamp hmacDemo "secret" "body"
      "deadbeef" "100" 150 300 =
      SignatureValidator.verify hmacDemo "secret" ("100" ++ "." ++ "body")
        "deadbeef" :=
  ⟨(verifyWithTimestamp_spec hmacDemo "secret" "body" "deadbeef" "nope"
      150 300 0).1 (by decide),
   (verifyWithTimestamp_spec hmacDemo "secret" "body" "deadbeef" "100"
      1000 300 100).2.1 (by decide) (by decide),
   (verifyWithTimestamp_spec hmacDemo "secret" "body" "deadbeef" "100"
      150 300 100).2.2 (by decide) (by decide)⟩

/-- C7: `calculateDerivedFields` first rounds the 2% fee to 2 decimal places
(`toFixed(2)` rounding: nearest multiple of 1/100, ties up) and only then
rounds the difference `amount - fee`; on the amount 100.50 (`mkRat 201 2`)
it yields the fee 2.01 (`mkRat 201 100`) and net 98.49 (`mkRat 9849 100`). -/
theorem calculateDerivedFields_spec :
    (∀ amount : ℚ,
      TransactionCalculator.calculateDerivedFields amount =
        (((round (amount * (2 / 100) * 100) : ℤ) : ℚ) / 100,
         ((round ((amount -
             ((round (amount * (2 / 100) * 100) : ℤ) : ℚ) / 100) * 100) : ℤ) : ℚ)
           / 100))
    ∧ TransactionCalculator.calculateDerivedFields (mkRat 201 2) =
        (mkRat 201 100, mkRat 9849 100) := by
  constructor
  · intro amount
    simp [TransactionCalculator.calculateDerivedFields, toFixed2,
      TransactionCalculator.FEE_PERCENT]
  · decide

/-- C4 counterexample: a payload whose amount is the non-finite value
`Infinity` passes the whole validation (`Infinity` is a number, is not NaN,
is not `<= 0`, and its rendering `"Infinity"` has no fractional part), so
`validate` does not enforce finiteness as the claim states. -/
theorem validate_accepts_infinite_amount :
    TransactionValidator.validate infAmountPayload = .ok ()
    ∧ infAmountPayload.amt = some (.num .posInf) :=
  ⟨by decide, by decide⟩

/-- C4 amended: `validateAmount` accepts exactly the numbers that are not
NaN, not `<= 0` under JS comparison, and whose JS string rendering has at
most 2 characters after the first dot.  NaN, non-numbers, zero, negatives
and finite amounts rendered with more than 2 decimals (such as 10.005) are
rejected with the field tag `amount`, but `Infinity` (rendered without a
dot) and values rendered in exponent notation (such as 1e-7) are accepted:
finiteness and the 2-decimal bound are not enforced for them. -/
theorem validateAmount_spec :
    (∀ n : JSNum,
      exceptOk (TransactionValidator.validateAmount (some (.num n))) =
        (!n.jsIsNaN && !n.jsLeZero && !fracTooLong n.jsToString))
    ∧ TransactionValidator.validateAmount
        (some (.num (.finite (mkRat 2001 200) "10.005"))) =
      .error ⟨"amount", "Amount cannot have more than 2 decimal places"⟩
    ∧ TransactionValidator.validateAmount (some (.num .nan)) =
      .error ⟨"amount", "Amount must be a valid number"⟩
    ∧ TransactionValidator.validateAmount (some (.str "100")) =
      .error ⟨"amount", "Amount must be a valid number"⟩
    ∧ TransactionValidator.validateAmount (some (.num (.finite 0 "0"))) =
      .error ⟨"amount", "Amount must be a positive number"⟩
    ∧ TransactionValidator.validateAmount
        (some (.num (.finite (mkRat (-5) 1) "-5"))) =
      .error ⟨"amount", "Amount must be a positive number"⟩
    ∧ TransactionValidator.validateAmount (some (.num .posInf)) = .ok ()
    ∧ TransactionValidator.validateAmount
        (some (.num (.finite (mkRat 1 10000000) "1e-7"))) = .ok () := by
  refine ⟨fun n => ?_, by decide, by decide, by decide, by decide, by decide,
    by decide, by decide⟩
  simp only [TransactionValidator.validateAmount]
  by_cases h1 : n.jsIsNaN <;> by_cases h2 : n.jsLeZero <;>
    by_cases h3 : fracTooLong n.jsToString <;> simp [h1, h2, h3, exceptOk]

/-- Bind on a successful `Except` step. -/
theorem exbind_ok {ε α β : Type} (a : α) (f : α → Except ε β) :
    ((Except.ok a : Except ε α) >>= f) = f a := rfl

/-- Bind on a failed `Except` step propagates the error. -/
theorem exbind_error {ε α β : Type} (e : ε) (f : α → Except ε β) :
    ((Except.error e : Except ε α) >>= f) = Except.error e := rfl

/-- The field of an error raised by the required-fields loop is one of the
field names of its entry list. -/
theorem requiredLoop_field (l : List (String × ReqValue))
    (e : ValidationError) :
    requiredLoop l = .error e → e.field ∈ l.map Prod.fst := by
  induction l with
  | nil => exact fun h => Except.noConfusion h
  | cons hd tl ih =>
    intro h
    rw [show requiredLoop (hd :: tl) =
        if hd.2.isMissing then .error ⟨hd.1, s!"{hd.1} is required"⟩
        else requiredLoop tl from rfl] at h
    split at h
    · injection h with h2
      subst h2
      exact List.mem_cons_self _ _
    · exact List.mem_cons_of_mem _ (ih h)

/-- Every error of `validateRequired` carries one of the dotted tags of the
`requiredFields` map. -/
theorem validateRequired_field {p : WebhookPayload} {e : ValidationError}
    (h : TransactionValidator.validateRequired p = .error e) :
    e.field ∈ requiredTags := by
  have h2 := requiredLoop_field (TransactionValidator.requiredFields p) e h
  simpa [TransactionValidator.requiredFields, requiredTags] using h2

/-- Every error of `validateAmount` is tagged `amount`. -/
theorem validateAmount_field {a : Option JSAmount} {e : ValidationError}
    (h : TransactionValidator.validateAmount a = .error e) :
    e.field = "amount" := by
  unfold TransactionValidator.validateAmount at h
  split at h
  · split at h
    · injection h with h2
      subst h2
      rfl
    · split at h
      · injection h with h2
        subst h2
        rfl
      · split at h
        · injection h with h2
          subst h2
          rfl
        · exact Except.noConfusion h
  · injection h with h2
    subst h2
    rfl

/-- Every error of `validateCurrency` is tagged `currency`. -/
theorem validateCurrency_field {c : Option String} {e : ValidationError}
    (h : TransactionValidator.validateCurrency c = .error e) :
    e.field = "currency" := by
  unfold TransactionValidator.validateCurrency at h
  split at h
  · injection h with h2
    subst h2
    rfl
  · split at h
    · injection h with h2
      subst h2
      rfl
    · split at h
      · exact Except.noConfusion h
      · injection h with h2
        subst h2
        rfl

/-- Every error of `validateStatus` is tagged `status`. -/
theorem validateStatus_field {c : Option String} {e : ValidationError}
    (h : TransactionValidator.validateStatus c = .error e) :
    e.field = "status" := by
  unfold TransactionValidator.validateStatus at h
  split at h
  · injection h with h2
    subst h2
    rfl
  · split at h
    · injection h with h2
      subst h2
      rfl
    · split at h
      · exact Except.noConfusion h
      · injection h with h2
        subst h2
        rfl

/-- Every error of the country-loop body is tagged `country_<index>`. -/
theorem countryCheck_field {index : Nat} {c : Option String}
    {e : ValidationError}
    (h : TransactionValidator.countryCheck index c = .error e) :
    e.field = s!"country_{index}" := by
  unfold TransactionValidator.countryCheck at h
  split at h
  · injection h with h2
    subst h2
    rfl
  · split at h
    · injection h with h2
      subst h2
      rfl
    · split at h
      · exact Except.noConfusion h
      · injection h with h2
        subst h2
        rfl

/-- Every error of `validateCountryCodes` on the sender/receiver pair is
tagged `country_0` or `country_1` (not a dotted field path). -/
theorem validateCountryCodes_pair_field {a b : Option String}
    {e : ValidationError}
    (h : TransactionValidator.validateCountryCodes [a, b] = .error e) :
    e.field = "country_0" ∨ e.field = "country_1" := by
  unfold TransactionValidator.validateCountryCodes
    TransactionValidator.countryLoop TransactionValidator.countryLoop at h
  cases hc : TransactionValidator.countryCheck 0 a with
  | error e0 =>
    rw [hc, exbind_error] at h
    injection h with h2
    subst h2
    exact Or.inl ((countryCheck_field hc).trans (by decide))
  | ok u =>
    cases u
    rw [hc, exbind_ok] at h
    cases hd : TransactionValidator.countryCheck 1 b with
    | error e1 =>
      rw [hd, exbind_error] at h
      injection h with h2
      subst h2
      exact Or.inr ((countryCheck_field hd).trans (by decide))
    | ok v =>
      cases v
      rw [hd, exbind_ok] at h
      exact Except.noConfusion h

/-- Every error of `validateEmail` is tagged with the passed field name
(`sender.email` / `receiver.email` at the two call sites). -/
theorem validateEmail_field {em : Option String} {f : String}
    {e : ValidationError}
    (h : TransactionValidator.validateEmail em f = .error e) :
    e.field = f := by
  unfold TransactionValidator.validateEmail at h
  split at h
  · injection h with h2
    subst h2
    rfl
  · split at h
    · injection h with h2
      subst h2
      rfl
    · split at h
      · exact Except.noConfusion h
      · injection h with h2
        subst h2
        rfl

/-- C3 counterexample: for a payload that is valid except for the three-letter
sender country `"USA"`, the single raised error names the validator's loop
tag `country_0`, not the dotted field path `data.sender.country` of the
offending field, refuting the exact-dotted-path part of the claim. -/
theorem validate_country_error_tag_not_dotted :
    TransactionValidator.validate badCountryPayload =
      .error ⟨"country_0",
        "Country code must be 2-letter ISO code (e.g., US, IN, GB). Received: USA"⟩
    ∧ "country_0" ≠ "data.sender.country" :=
  ⟨by decide, by decide⟩

/-- C3 amended: `validate` raises the single error of the first violated rule
in the fixed order required-fields, amount, currency, status, country codes
(sender then receiver), email (sender then receiver); the required-field
errors carry the dotted paths of the `requiredFields` map, while the other
rules carry the validator's own tags `amount`, `currency`, `status`,
`country_0`/`country_1` and `sender.email`/`receiver.email` rather than the
full dotted path of the offending field. -/
theorem validate_first_error_and_tags :
    (∀ p e, TransactionValidator.validate p = .error e →
      e.field ∈ requiredTags ∨ e.field = "amount" ∨ e.field = "currency" ∨
      e.field = "status" ∨ e.field = "country_0" ∨ e.field = "country_1" ∨
      e.field = "sender.email" ∨ e.field = "receiver.email")
    ∧ (∀ p e, TransactionValidator.validateRequired p = .error e →
        TransactionValidator.validate p = .error e)
    ∧ (∀ p e, TransactionValidator.validateRequired p = .ok () →
        TransactionValidator.validateAmount p.amt = .error e →
        TransactionValidator.validate p = .error e)
    ∧ (∀ p e, TransactionValidator.validateRequired p = .ok () →
        TransactionValidator.validateAmount p.amt = .ok () →
        TransactionValidator.validateCurrency p.cur = .error e →
        TransactionValidator.validate p = .error e)
    ∧ (∀ p e, TransactionValidator.validateRequired p = .ok () →
        TransactionValidator.validateAmount p.amt = .ok () →
        TransactionValidator.validateCurrency p.cur = .ok () →
        TransactionValidator.validateStatus p.stat = .error e →
        TransactionValidator.validate p = .error e)
    ∧ (∀ p e, TransactionValidator.validateRequired p = .ok () →
        TransactionValidator.validateAmount p.amt = .ok () →
        TransactionValidator.validateCurrency p.cur = .ok () →
        TransactionValidator.validateStatus p.stat = .ok () →
        TransactionValidator.validateCountryCodes [p.sendCountry, p.recvCountry]
          = .error e →
        TransactionValidator.validate p = .error e)
    ∧ (∀ p e, TransactionValidator.validateRequired p = .ok () →
        TransactionValidator.validateAmount p.amt = .ok () →
        TransactionValidator.validateCurrency p.cur = .ok () →
        TransactionValidator.validateStatus p.stat = .ok () →
        TransactionValidator.validateCountryCodes [p.sendCountry, p.recvCountry]
          = .ok () →
        TransactionValidator.validateEmail p.sendEmail "sender.email" = .error e →
        TransactionValidator.validate p = .error e)
    ∧ (∀ p e, TransactionValidator.validateRequired p = .ok () →
        TransactionValidator.validateAmount p.amt = .ok () →
        TransactionValidator.validateCurrency p.cur = .ok () →
        TransactionValidator.validateStatus p.stat = .ok () →
        TransactionValidator.validateCountryCodes [p.sendCountry, p.recvCountry]
          = .ok () →
        TransactionValidator.validateEmail p.sendEmail "sender.email" = .ok () →
        TransactionValidator.validateEmail p.recvEmail "receiver.email" = .error e →
        TransactionValidator.validate p = .error e) := by
  refine ⟨fun p e h => ?_, fun p e h1 => ?_, fun p e h1 h2 => ?_,
    fun p e h1 h2 h3 => ?_, fun p e h1 h2 h3 h4 => ?_,
    fun p e h1 h2 h3 h4 h5 => ?_, fun p e h1 h2 h3 h4 h5 h6 => ?_,
    fun p e h1 h2 h3 h4 h5 h6 h7 => ?_⟩
  · unfold TransactionValidator.validate at h
    cases h1 : TransactionValidator.validateRequired p with
    | error e1 =>
      rw [h1, exbind_error] at h
      injection h with h2
      subst h2
      exact Or.inl (validateRequired_field h1)
    | ok u1 =>
      cases u1
      rw [h1, exbind_ok] at h
      cases h2 : TransactionValidator.validateAmount p.amt with
      | error e2 =>
        rw [h2, exbind_error] at h
        injection h with hh
        subst hh
        exact Or.inr (Or.inl (validateAmount_field h2))
      | ok u2 =>
        cases u2
        rw [h2, exbind_ok] at h
        cases h3 : TransactionValidator.validateCurrency p.cur with
        | error e3 =>
          rw [h3, exbind_error] at h
          injection h with hh
          subst hh
          exact Or.inr (Or.inr (Or.inl (validateCurrency_field h3)))
        | ok u3 =>
          cases u3
          rw [h3, exbind_ok] at h
          cases h4 : TransactionValidator.validateStatus p.stat with
          | error e4 =>
            rw [h4, exbind_error] at h
            injection h with hh
            subst hh
            exact Or.inr (Or.inr (Or.inr (Or.inl (validateStatus_field h4))))
          | ok u4 =>
            cases u4
            rw [h4, exbind_ok] at h
            cases h5 : TransactionValidator.validateCountryCodes
                [p.sendCountry, p.recvCountry] with
            | error e5 =>
              rw [h5, exbind_error] at h
              injection h with hh
              subst hh
              rcases validateCountryCodes_pair_field h5 with hc | hc
              · exact Or.inr (Or.inr (Or.inr (Or.inr (Or.inl hc))))
              · exact Or.inr (Or.inr (Or.inr (Or.inr (Or.inr (Or.inl hc)))))
            | ok u5 =>
              cases u5
              rw [h5, exbind_ok] at h
              cases h6 : TransactionValidator.validateEmail p.sendEmail
                  "sender.email" with
              | error e6 =>
                rw [h6, exbind_error] at h
                injection h with hh
                subst hh
                exact Or.inr (Or.inr (Or.inr (Or.inr (Or.inr (Or.inr
                  (Or.inl (validateEmail_field h6)))))))
              | ok u6 =>
                cases u6
                rw [h6, exbind_ok] at h
                exact Or.inr (Or.inr (Or.inr (Or.inr (Or.inr (Or.inr
                  (Or.inr (validateEmail_field h)))))))
  · simp only [TransactionValidator.validate, h1, exbind_error]
  · simp only [TransactionValidator.validate, h1, h2, exbind_ok, exbind_error]
  · simp only [TransactionValidator.validate, h1, h2, h3, exbind_ok,
      exbind_error]
  · simp only [TransactionValidator.validate, h1, h2, h3, h4, exbind_ok,
      exbind_error]
  · simp only [TransactionValidator.validate, h1, h2, h3, h4, h5, exbind_ok,
      exbind_error]
  · simp only [TransactionValidator.validate, h1, h2, h3, h4, h5, h6,
      exbind_ok, exbind_error]
  · simp only [TransactionValidator.validate, h1, h2, h3, h4, h5, h6, h7,
      exbind_ok, exbind_error]

/-- C3 witness: the tag disjunction instantiated on the concrete run with the
bad sender country, and the precedence conjunct instantiated on a payload
whose first violated rule is the country check. -/
theorem validate_first_error_and_tags_witness :
    ("country_0" ∈ requiredTags ∨ "country_0" = "amount" ∨
      "country_0" = "currency" ∨ "country_0" = "status" ∨
      "country_0" = "country_0" ∨ "country_0" = "country_1" ∨
      "country_0" = "sender.email" ∨ "country_0" = "receiver.email")
    ∧ TransactionValidator.validate badCountryPayload =
      .error ⟨"country_0",
        "Country code must be 2-letter ISO code (e.g., US, IN, GB). Received: USA"⟩ :=
  ⟨validate_first_error_and_tags.1 badCountryPayload
    ⟨"country_0",
      "Country code must be 2-letter ISO code (e.g., US, IN, GB). Received: USA"⟩
    (by decide),
   (validate_first_error_and_tags.2.2.2.2.2.1) badCountryPayload
    ⟨"country_0",
      "Country code must be 2-letter ISO code (e.g., US, IN, GB). Received: USA"⟩
    (by decide) (by decide) (by decide) (by decide) (by decide)⟩

/-- C10: the validator is a pure function returning only a verdict
(`Except ValidationError Unit`); in this embedding of the source, which never
assigns to any payload field, the payload is untouched by construction.  The
case-insensitive checks compare locally computed upper-cased copies
(`jsToUpper c`) and accept the lower-case payload as-is, while the
upper-casing that reaches storage happens only in the `transactionRepo.create`
literal of `WebhookService`: the stored row carries `"USD"`/`"US"` although
the accepted payload still carries `"usd"`/`"us"`. -/
theorem validate_leaves_payload_unchanged :
    (∀ p derived now,
      (WebhookService.mkTransaction p derived now).currency =
        jsToUpper (p.cur.getD "")
      ∧ (WebhookService.mkTransaction p derived now).sender_country =
        jsToUpper (p.sendCountry.getD "")
      ∧ (WebhookService.mkTransaction p derived now).receiver_country =
        jsToUpper (p.recvCountry.getD ""))
    ∧ TransactionValidator.validate lcPayload = .ok ()
    ∧ lcPayload.cur = some "usd"
    ∧ lcPayload.sendCountry = some "us"
    ∧ lcPayload.recvCountry = some "ca"
    ∧ TransactionValidator.validateCurrency (some "usd") =
      TransactionValidator.validateCurrency (some "USD")
    ∧ exceptOk (TransactionValidator.countryCheck 0 (some "us")) =
      exceptOk (TransactionValidator.countryCheck 0 (some "US"))
    ∧ (WebhookService.mkTransaction lcPayload (0, 0) 0).currency = "USD"
    ∧ (WebhookService.mkTransaction lcPayload (0, 0) 0).sender_country = "US"
    ∧ (WebhookService.mkTransaction lcPayload (0, 0) 0).receiver_country = "CA" :=
  ⟨fun _ _ _ => ⟨rfl, rfl, rfl⟩, by decide, by decide, by decide, by decide,
   by decide, by decide, by decide, by decide, by decide⟩

/-- The audit recorder never touches the `transactions` table. -/
theorem logWebhookEvent_transactions (fail : Bool) (st : Store)
    (p : WebhookPayload) (status : String) (errMsg : Option String) :
    (WebhookService.logWebhookEvent fail st p status errMsg).transactions =
      st.transactions := by
  cases fail <;> simp [WebhookService.logWebhookEvent, saveAuditLog]

/-- A successful `pipelineAttempt` returns exactly the record built by the
`transactionRepo.create` literal. -/
theorem pipelineAttempt_ok_shape {ib : InsertBehavior} {now : Int}
    {p : WebhookPayload} {txns : List TransactionRecord}
    {pr : TransactionRecord × List TransactionRecord}
    (h : WebhookService.pipelineAttempt ib now p txns = .ok pr) :
    pr.1 = WebhookService.mkTransaction p
      (TransactionCalculator.calculateDerivedFields
        (WebhookService.payloadAmount p)) now := by
  unfold WebhookService.pipelineAttempt at h
  cases h1 : (TransactionValidator.validate p).mapError
      PipelineError.validationFailed with
  | error e1 => rw [h1, exbind_error] at h; exact Except.noConfusion h
  | ok u1 =>
    cases u1
    rw [h1, exbind_ok] at h
    cases h2 : WebhookService.checkDuplicate txns (p.event_id.getD "")
        (p.txnId.getD "") with
    | error e2 => rw [h2, exbind_error] at h; exact Except.noConfusion h
    | ok u2 =>
      cases u2
      rw [h2, exbind_ok] at h
      dsimp only at h
      cases h3 : (insertTransaction ib txns
          (WebhookService.mkTransaction p
            (TransactionCalculator.calculateDerivedFields
              (WebhookService.payloadAmount p)) now)).mapError
          PipelineError.queryFailed with
      | error e3 => rw [h3] at h; exact Except.noConfusion h
      | ok l =>
        rw [h3] at h
        injection h with hh
        subst hh
        rfl

/-- C8: every transaction record the pipeline persists has its currency and
both country codes upper-cased, its `processed_at` set to the `new Date()`
taken during persistence, and its `exchange_rate` null (the `create` literal
never sets that nullable column). -/
theorem processWebhook_persists_normalized_record :
    ∀ env p st rec, (WebhookService.processWebhook env p st).1 = .ok rec →
      rec.currency = jsToUpper (p.cur.getD "")
      ∧ rec.sender_country = jsToUpper (p.sendCountry.getD "")
      ∧ rec.receiver_country = jsToUpper (p.recvCountry.getD "")
      ∧ rec.processed_at = env.now
      ∧ rec.exchange_rate = none := by
  intro env p st rec h
  unfold WebhookService.processWebhook at h
  dsimp only at h
  set st1 := WebhookService.logWebhookEvent env.auditFailReceived st p
    "received" none with hst1
  cases hA : WebhookService.pipelineAttempt env.insertBehavior env.now p
      st1.transactions with
  | error e =>
    rw [hA] at h
    exact Except.noConfusion h
  | ok pr =>
    rw [hA] at h
    injection h with hh
    have hshape := pipelineAttempt_ok_shape hA
    rw [← hh, hshape]
    exact ⟨rfl, rfl, rfl, rfl, rfl⟩

/-- C8 witness: the healthy demo run persists `demoRecord`, which carries the
upper-cased codes, the persistence clock and a null exchange rate. -/
theorem processWebhook_persists_normalized_record_witness :
    (WebhookService.processWebhook envOK goodPayload emptyStore).1 =
      .ok demoRecord
    ∧ (demoRecord.currency = jsToUpper (goodPayload.cur.getD "")
      ∧ demoRecord.sender_country = jsToUpper (goodPayload.sendCountry.getD "")
      ∧ demoRecord.receiver_country = jsToUpper (goodPayload.recvCountry.getD "")
      ∧ demoRecord.processed_at = envOK.now
      ∧ demoRecord.exchange_rate = none) :=
  ⟨by decide,
   processWebhook_persists_normalized_record envOK goodPayload emptyStore
     demoRecord (by decide)⟩

/-- The outcome component of `processWebhook` is a function of the insert
behaviour, the clock and the visible transactions only. -/
theorem processWebhook_fst (env : Env) (p : WebhookPayload) (st : Store) :
    (WebhookService.processWebhook env p st).1 =
      match WebhookService.pipelineAttempt env.insertBehavior env.now p
          st.transactions with
      | .ok pr => .ok pr.1
      | .error e => .error e := by
  unfold WebhookService.processWebhook
  dsimp only
  rw [logWebhookEvent_transactions]
  cases hx : WebhookService.pipelineAttempt env.insertBehavior env.now p
      st.transactions with
  | ok pr => cases pr; rfl
  | error e => rfl

/-- The transactions table after `processWebhook` is likewise independent of
the audit-write faults. -/
theorem processWebhook_snd_transactions (env : Env) (p : WebhookPayload)
    (st : Store) :
    (WebhookService.processWebhook env p st).2.transactions =
      match WebhookService.pipelineAttempt env.insertBehavior env.now p
          st.transactions with
      | .ok pr => pr.2
      | .error _ => st.transactions := by
  unfold WebhookService.processWebhook
  dsimp only
  rw [logWebhookEvent_transactions]
  cases hx : WebhookService.pipelineAttempt env.insertBehavior env.now p
      st.transactions with
  | ok pr =>
    cases pr
    dsimp only
    rw [logWebhookEvent_transactions]
  | error e =>
    dsimp only
    rw [logWebhookEvent_transactions, logWebhookEvent_transactions]

/-- C9: `logWebhookEvent` swallows audit-write failures (it is total and
returns a store in every branch), so whether the audit writes fail has no
effect on the pipeline outcome, on the persisted transactions, or on the
HTTP status the route returns: runs that differ only in the injected
audit-write faults agree on all three. -/
theorem audit_write_failure_is_harmless :
    ∀ (hmac : String → String → String) (secret rawBody : String)
      (headers : RequestHeaders) (ib : InsertBehavior) (now ct : Int)
      (f1 g1 f2 g2 : Bool) (p : WebhookPayload) (st : Store),
      (WebhookService.processWebhook ⟨ib, f1, g1, now, ct⟩ p st).1 =
        (WebhookService.processWebhook ⟨ib, f2, g2, now, ct⟩ p st).1
      ∧ (WebhookService.processWebhook ⟨ib, f1, g1, now, ct⟩ p st).2.transactions
        = (WebhookService.processWebhook ⟨ib, f2, g2, now, ct⟩ p st).2.transactions
      ∧ (handlePaymentRequest hmac secret ⟨ib, f1, g1, now, ct⟩ rawBody headers
          p st).1 =
        (handlePaymentRequest hmac secret ⟨ib, f2, g2, now, ct⟩ rawBody headers
          p st).1 := by
  intro hmac secret rawBody headers ib now ct f1 g1 f2 g2 p st
  have hfst : (WebhookService.processWebhook ⟨ib, f1, g1, now, ct⟩ p st).1 =
      (WebhookService.processWebhook ⟨ib, f2, g2, now, ct⟩ p st).1 := by
    rw [processWebhook_fst, processWebhook_fst]
  refine ⟨hfst, ?_, ?_⟩
  · rw [processWebhook_snd_transactions, processWebhook_snd_transactions]
  · unfold handlePaymentRequest
    dsimp only
    by_cases hsig : headers.signature.getD "" = ""
    · rw [if_pos hsig, if_pos hsig]
    · rw [if_neg hsig, if_neg hsig]
      cases hb : signatureIsValid hmac secret rawBody headers ct with
      | false => rfl
      | true =>
        rw [if_neg (by decide : ¬((!true) = true)),
          if_neg (by decide : ¬((!true) = true))]
        rcases h1 : WebhookService.processWebhook ⟨ib, f1, g1, now, ct⟩ p st
          with ⟨r1, s1⟩
        rcases h2 : WebhookService.processWebhook ⟨ib, f2, g2, now, ct⟩ p st
          with ⟨r2, s2⟩
        have hr : r1 = r2 := by
          have ha : (WebhookService.processWebhook ⟨ib, f1, g1, now, ct⟩
              p st).1 = r1 := by rw [h1]
          have hb2 : (WebhookService.processWebhook ⟨ib, f2, g2, now, ct⟩
              p st).1 = r2 := by rw [h2]
          rw [← ha, ← hb2, hfst]
        rw [← hr]
        cases r1 with
        | ok t => rfl
        | error e => cases e <;> rfl

/-- `mapError` is the identity on a success. -/
theorem exmapError_ok {ε ε2 α : Type} (f : ε → ε2) (a : α) :
    Except.mapError f (.ok a : Except ε α) = .ok a := rfl

/-- `mapError` applies the translation on a failure. -/
theorem exmapError_error {ε ε2 α : Type} (f : ε → ε2) (e : ε) :
    Except.mapError f (.error e : Except ε α) =
      (.error (f e) : Except ε2 α) := rfl

/-- C2 counterexample: a request with a missing (or invalid) signature is
rejected by the `verifySignature` middleware with 401 before `processWebhook`
runs, so it produces zero `AuditLogEntry` rows, not the at-least-two
(`received` plus terminal) the claim asserts for every request. -/
theorem unauthenticated_request_writes_no_audit_rows :
    (handlePaymentRequest hmacDemo "secret" envOK "body" ⟨none, none⟩
      goodPayload emptyStore).1 = 401
    ∧ (handlePaymentRequest hmacDemo "secret" envOK "body" ⟨none, none⟩
      goodPayload emptyStore).2.auditLogs.length = 0
    ∧ (handlePaymentRequest hmacDemo "secret" envOK "body" ⟨some "wrong", none⟩
      goodPayload emptyStore).1 = 401
    ∧ (handlePaymentRequest hmacDemo "secret" envOK "body" ⟨some "wrong", none⟩
      goodPayload emptyStore).2.auditLogs.length = 0
    ∧ ¬ (2 ≤ (handlePaymentRequest hmacDemo "secret" envOK "body" ⟨none, none⟩
      goodPayload emptyStore).2.auditLogs.length) :=
  ⟨by decide, by decide, by decide, by decide, by decide⟩

/-- C2 amended: every request that passes signature verification and reaches
`processWebhook` triggers exactly two audit writes: one `received` entry
before any validation and one terminal entry whose status is `processed` on
success and `failed` on any error; when the audit store accepts the writes,
exactly these two rows are appended.  Requests rejected by the signature
middleware write no audit rows at all, and the audit writes themselves are
best-effort. -/
theorem processWebhook_two_audit_writes :
    (∀ r : Except PipelineError TransactionRecord,
      terminalStatusOf r = "processed" ∨ terminalStatusOf r = "failed")
    ∧ (∀ env p st, env.auditFailReceived = false →
      env.auditFailTerminal = false →
      (WebhookService.processWebhook env p st).2.auditLogs =
        st.auditLogs ++ [mkAuditEntry p "received" none,
          mkAuditEntry p
            (terminalStatusOf (WebhookService.processWebhook env p st).1)
            (terminalMessageOf (WebhookService.processWebhook env p st).1)]) := by
  constructor
  · intro r
    cases r with
    | ok _ => exact Or.inl rfl
    | error _ => exact Or.inr rfl
  · intro env p st h1 h2
    unfold WebhookService.processWebhook
    rw [h1, h2]
    dsimp only
    rw [logWebhookEvent_transactions]
    cases hA : WebhookService.pipelineAttempt env.insertBehavior env.now p
        st.transactions with
    | ok pr =>
      cases pr
      simp [WebhookService.logWebhookEvent, saveAuditLog, terminalStatusOf,
        terminalMessageOf, List.append_assoc]
    | error e =>
      simp [WebhookService.logWebhookEvent, saveAuditLog, terminalStatusOf,
        terminalMessageOf, List.append_assoc]

/-- C2 witness: the healthy demo run appends exactly the `received` and
`processed` rows. -/
theorem processWebhook_two_audit_writes_witness :
    (terminalStatusOf (.ok demoRecord) = "processed" ∨
      terminalStatusOf (.ok demoRecord) = "failed")
    ∧ (WebhookService.processWebhook envOK goodPayload emptyStore).2.auditLogs =
      emptyStore.auditLogs ++ [mkAuditEntry goodPayload "received" none,
        mkAuditEntry goodPayload
          (terminalStatusOf
            (WebhookService.processWebhook envOK goodPayload emptyStore).1)
          (terminalMessageOf
            (WebhookService.processWebhook envOK goodPayload emptyStore).1)] :=
  ⟨processWebhook_two_audit_writes.1 (.ok demoRecord),
   processWebhook_two_audit_writes.2 envOK goodPayload emptyStore rfl rfl⟩

/-- C1 counterexample: with a valid, non-duplicate payload whose insert hits
the uniqueness constraint (concurrent duplicate past the pre-check), the
pipeline rethrows the storage error untranslated and the route answers 500,
not the 409 duplicate signal the claim requires. -/
theorem insert_unique_violation_not_remapped :
    insertTransaction .concurrentDuplicate emptyStore.transactions demoRecord =
      .error .uniqueViolation
    ∧ (WebhookService.processWebhook envDup goodPayload emptyStore).1 =
      .error (.queryFailed .uniqueViolation)
    ∧ (handlePaymentRequest hmacDemo "secret" envDup "body"
      ⟨some "deadbeef", none⟩ goodPayload emptyStore).1 = 500
    ∧ (handlePaymentRequest hmacDemo "secret" envDup "body"
      ⟨some "deadbeef", none⟩ goodPayload emptyStore).1 ≠ 409 :=
  ⟨by decide, by decide, by decide, by decide⟩

/-- C1 amended: an insert-time uniqueness violation is not caught by
`processWebhook`: after a passing validation and a clear idempotency
pre-check, the pipeline surfaces the raw storage error
(`queryFailed uniqueViolation`), which the route's catch maps to the generic
500 response; only the pre-check produces `DuplicateTransactionError`/409. -/
theorem insert_unique_violation_maps_to_500 :
    ∀ (hmac : String → String → String) (secret rawBody : String)
      (headers : RequestHeaders) (env : Env) (p : WebhookPayload) (st : Store),
      env.insertBehavior = .concurrentDuplicate →
      TransactionValidator.validate p = .ok () →
      WebhookService.checkDuplicate st.transactions (p.event_id.getD "")
        (p.txnId.getD "") = .ok () →
      headers.signature.getD "" ≠ "" →
      signatureIsValid hmac secret rawBody headers env.currentTime = true →
      (WebhookService.processWebhook env p st).1 =
        .error (.queryFailed .uniqueViolation)
      ∧ (handlePaymentRequest hmac secret env rawBody headers p st).1 = 500 := by
  intro hmac secret rawBody headers env p st hib hval hdup hsig hvalid
  have hfst : (WebhookService.processWebhook env p st).1 =
      .error (.queryFailed .uniqueViolation) := by
    rw [processWebhook_fst]
    unfold WebhookService.pipelineAttempt
    rw [hval, exmapError_ok, exbind_ok, hdup, exbind_ok]
    dsimp only
    rw [hib]
    rfl
  refine ⟨hfst, ?_⟩
  unfold handlePaymentRequest
  rw [if_neg hsig, hvalid,
    if_neg (by decide : ¬((!true) = true))]
  rcases hp : WebhookService.processWebhook env p st with ⟨r, s2⟩
  have hr : r = .error (.queryFailed .uniqueViolation) := by
    rw [← hfst, hp]
  subst hr
  rfl

/-- C1 witness: the concrete race run with a correct signature, a valid
payload and an empty store. -/
theorem insert_unique_violation_maps_to_500_witness :
    (WebhookService.processWebhook envDup goodPayload emptyStore).1 =
      .error (.queryFailed .uniqueViolation)
    ∧ (handlePaymentRequest hmacDemo "secret" envDup "body"
      ⟨some "deadbeef", none⟩ goodPayload emptyStore).1 = 500 :=
  insert_unique_violation_maps_to_500 hmacDemo "secret" "body"
    ⟨some "deadbeef", none⟩ envDup goodPayload emptyStore (by decide)
    (by decide) (by decide) (by decide) (by decide)

end
